import Mathlib

/-!
Verification of the `ghast` router core (`src/pkg/router/router.go`) via a
shallow embedding.  Handlers and middleware functions are opaque in the source
(they are invoked only for side effects), so they are embedded as numeric
labels; dispatch returns a trace recording which middleware labels ran, in
order, and which handler label was invoked, together with the request context
that the handler observes.  Go's `context.WithValue` chain is embedded as an
association list with the most recent binding in front.
-/

namespace Ghast

/-- HTTP verb constants from the top of `router.go`. -/
def connect : String := "CONNECT"

/-- The DELETE verb constant. -/
def delete : String := "DELETE"

/-- The GET verb constant. -/
def get : String := "GET"

/-- The HEAD verb constant. -/
def head : String := "HEAD"

/-- The OPTIONS verb constant. -/
def options : String := "OPTIONS"

/-- The PATCH verb constant. -/
def patch : String := "PATCH"

/-- The POST verb constant. -/
def post : String := "POST"

/-- The PUT verb constant. -/
def put : String := "PUT"

/-- The TRACE verb constant. -/
def trace : String := "TRACE"

/-- `Binding` from `router.go`: maps a url pattern to a handler.  `match` is a
Lean keyword, hence the field name `match_`.  Handler and middleware functions
are opaque labels. -/
structure Binding where
  handler : Nat
  match_ : String
  method : String
  middlewares : List Nat
deriving Repr, DecidableEq

/-- `Router` from `router.go`.  The DI container is an opaque reference,
embedded as a number (0 = nil). -/
structure Router where
  path : String
  binding : List Binding
  container : Nat
  middlewares : List Nat
deriving Repr, DecidableEq

/-- The zero value of `Router` in Go. -/
def Router.empty : Router := ⟨"", [], 0, []⟩

/-- `Router.Base`: sets the base path for this router segment. -/
def Router.Base (r : Router) (pfx : String) : Router := { r with path := pfx }

/-- `Router.AddMiddleware`: appends global middleware to the router. -/
def Router.AddMiddleware (r : Router) (fn : List Nat) : Router :=
  { r with middlewares := r.middlewares ++ fn }

/-- `Router.SetDIContainer`. -/
def Router.SetDIContainer (r : Router) (c : Nat) : Router := { r with container := c }

/-- `Router.route`: appends a binding; performs no validation of the pattern. -/
def Router.route (r : Router) (method : String) (rte : String) (f : Nat)
    (middleware : List Nat) : Router :=
  { r with binding := r.binding ++ [⟨f, rte, method, middleware⟩] }

/-- `Router.Get`. -/
def Router.Get (r : Router) (rte : String) (f : Nat) (middleware : List Nat) : Router :=
  r.route get rte f middleware

/-- `Router.Post`. -/
def Router.Post (r : Router) (rte : String) (f : Nat) (middleware : List Nat) : Router :=
  r.route post rte f middleware

/-- `Router.Put`. -/
def Router.Put (r : Router) (rte : String) (f : Nat) (middleware : List Nat) : Router :=
  r.route put rte f middleware

/-- `Router.Patch`. -/
def Router.Patch (r : Router) (rte : String) (f : Nat) (middleware : List Nat) : Router :=
  r.route patch rte f middleware

/-- `Router.Delete`. -/
def Router.Delete (r : Router) (rte : String) (f : Nat) (middleware : List Nat) : Router :=
  r.route delete rte f middleware

/-- `Router.Options`. -/
def Router.Options (r : Router) (rte : String) (f : Nat) (middleware : List Nat) : Router :=
  r.route options rte f middleware

/-- `Router.Head`. -/
def Router.Head (r : Router) (rte : String) (f : Nat) (middleware : List Nat) : Router :=
  r.route head rte f middleware

/-- `Router.Trace`. -/
def Router.Trace (r : Router) (rte : String) (f : Nat) (middleware : List Nat) : Router :=
  r.route trace rte f middleware

/-- `Router.Connect`. -/
def Router.Connect (r : Router) (rte : String) (f : Nat) (middleware : List Nat) : Router :=
  r.route connect rte f middleware

/-- `Router.Merge`: for each child router in argument order, for each of its
bindings in registration order, the loop copy of the binding gets the child's
path prepended to its pattern and the child's router-level middleware appended
to its chain, and is then appended to the receiver's table.  The loop body in
the source assigns only the loop-local copy `binding` and the receiver's
`r.binding`; no field of any child router is written. -/
def Router.Merge (r : Router) (routers : List Router) : Router :=
  routers.foldl
    (fun acc router =>
      router.binding.foldl
        (fun acc2 binding =>
          { acc2 with
            binding := acc2.binding ++
              [{ binding with
                  match_ := router.path ++ binding.match_,
                  middlewares := binding.middlewares ++ router.middlewares }] })
        acc)
    r

/-- One child merged into an accumulator, together with the child's state when
the loop body finishes: the source assigns only the loop-local binding copy and
the receiver's `binding` slice, so the child comes back field-for-field as it
went in. -/
def Router.mergeOneFull (acc : Router) (router : Router) : Router × Router :=
  (router.binding.foldl
      (fun acc2 binding =>
        { acc2 with
          binding := acc2.binding ++
            [{ binding with
                match_ := router.path ++ binding.match_,
                middlewares := binding.middlewares ++ router.middlewares }] })
      acc,
    router)

/-- The `Resource` collaborator shape: `GetName` plus five handler labels. -/
structure Resource where
  name : String
  Index : Nat
  Get : Nat
  Create : Nat
  Delete : Nat
  Update : Nat
deriving Repr, DecidableEq

/-- `Resource.GetName`. -/
def Resource.GetName (res : Resource) : String := res.name

/-- `Router.Resource`: registers Index, Get, Create, Delete and Update routes
for the resource, in exactly the order of the source. -/
def Router.Resource (r : Router) (pfx : String) (resource : Resource) : Router :=
  ((((r.Get (pfx ++ resource.GetName) resource.Index []).Get
        (pfx ++ resource.GetName ++ "/:id") resource.Get []).Post
      (pfx ++ resource.GetName) resource.Create []).Delete
    (pfx ++ resource.GetName ++ "/:id") resource.Delete []).Put
    (pfx ++ resource.GetName ++ "/:id") resource.Update []

/-! ### Pattern compiler and matcher

Modelled from the spec: the pattern compiler and matcher are provided by the
external `path-to-regexp` library, whose code is not part of this repository.
Per spec section 4.1, a pattern is a sequence of `/`-separated segments; a
segment introduced by the marker character `:` binds a named parameter, other
segments are literals, and a malformed pattern (here: a parameter marker with
an empty name) fails compilation with a pattern error.  A successful match of
a compiled pattern against a concrete string yields the captured substrings in
pattern-position order, and the parameter names correspond 1:1, in order, to
the capture positions. -/

/-- A compiled pattern segment: a literal, or a named parameter. -/
inductive Seg where
  | lit : String → Seg
  | param : String → Seg
deriving Repr, DecidableEq

/-- Splits a string at `/` characters (structural worker on the character
list, so that the kernel can evaluate it). -/
def splitChars : List Char → List Char → List String
  | [], acc => [String.mk acc.reverse]
  | c :: cs, acc =>
    if c = '/' then String.mk acc.reverse :: splitChars cs []
    else splitChars cs (c :: acc)

/-- Splits a path or pattern string into its `/`-separated segments. -/
def splitSegs (s : String) : List String := splitChars s.data []

/-- Modelled from the spec: compiles one pattern segment; a bare `:` (empty
parameter name) is malformed. -/
def compileSeg (s : String) : Except String Seg :=
  match s.data with
  | ':' :: [] => .error "PatternError: empty parameter name"
  | ':' :: rest => .ok (Seg.param (String.mk rest))
  | _ => .ok (Seg.lit s)

/-- Compiles a list of segments, stopping at the first malformed one. -/
def compileSegs : List String → Except String (List Seg)
  | [] => .ok []
  | s :: rest =>
    match compileSeg s, compileSegs rest with
    | .ok seg, .ok segs => .ok (seg :: segs)
    | .error e, _ => .error e
    | .ok _, .error e => .error e

/-- Modelled from the spec: compiles a pattern string into segments, failing
with a pattern error on a malformed pattern. -/
def compile (pat : String) : Except String (List Seg) :=
  compileSegs (splitSegs pat)

/-- Modelled from the spec: matches compiled segments against the segments of
a concrete string; literals must be equal, a parameter segment captures the
corresponding concrete segment.  Returns the captures in pattern-position
order, or `none`. -/
def matchSegs : List Seg → List String → Option (List String)
  | [], [] => some []
  | Seg.lit l :: ps, s :: ss => if s = l then matchSegs ps ss else none
  | Seg.param _ :: ps, s :: ss => (matchSegs ps ss).map (s :: ·)
  | _, _ => none

/-- Matches a compiled pattern against a concrete string. -/
def matchPattern (segs : List Seg) (s : String) : Option (List String) :=
  matchSegs segs (splitSegs s)

/-- The ordered parameter names of a compiled pattern (the `tokens` slice that
`PathToRegexp` fills in). -/
def paramNames (segs : List Seg) : List String :=
  segs.filterMap (fun s => match s with | Seg.param n => some n | Seg.lit _ => none)

/-! ### Requests and dispatch -/

/-- An HTTP request as the router observes it: method, URL path, raw query
string, and the `context.Context` key/value chain (most recent binding
first). -/
structure Request where
  method : String
  path : String
  query : String
  ctx : List (String × String)
deriving Repr, DecidableEq

/-- `req.URL.String()` for a server-side request URL: the path, followed by
`?` and the raw query when the query is nonempty. -/
def Request.urlString (req : Request) : String :=
  req.path ++ (if req.query = "" then "" else "?" ++ req.query)

/-- The observable outcome of a dispatch that found a match: the middleware
labels that ran, in execution order, the handler label invoked, and the
context attached to the request the handler receives. -/
structure DispatchResult where
  middlewaresRun : List Nat
  handlerRun : Nat
  ctx : List (String × String)
deriving Repr, DecidableEq

/-- The parameter-extraction loop of `ServeHTTP` (lines 102-109): iterates
over `match.Groups()` — group 0 is the whole matched string, followed by the
captures — and, whenever `len(tokens) >= match.Index && len(tokens) > 0`,
binds `tokens[match.Index].Name` to the group's string.  For the anchored
patterns the library produces, a successful match starts at position 0, so
`match.Index` is 0. -/
def extractCtx (toks : List String) (groupsAll : List String)
    (ctx : List (String × String)) : List (String × String) :=
  let matchIndex := 0
  groupsAll.foldl
    (fun c g =>
      if toks.length ≥ matchIndex ∧ toks.length > 0 then
        (toks.getD matchIndex "", g) :: c
      else c)
    ctx

/-- The scan loop of `ServeHTTP`: bindings in table order; skip on method
mismatch; otherwise compile the pattern for `r.path + binding.match` at
request time (`pathToRegexp.Must` turns a compile failure into a panic,
embedded as `.error`); on a match run the router's global middlewares, then
the binding's middlewares, extract parameters into the context, invoke the
handler and stop scanning. -/
def serveLoop (path : String) (mws : List Nat) (req : Request) :
    List Binding → Except String (Option DispatchResult)
  | [] => .ok none
  | binding :: rest =>
    if req.method = binding.method then
      match compile (path ++ binding.match_) with
      | .error e => .error e
      | .ok segs =>
        match matchPattern segs req.urlString with
        | none => serveLoop path mws req rest
        | some groups =>
          .ok (some
            { middlewaresRun := mws ++ binding.middlewares,
              handlerRun := binding.handler,
              ctx := extractCtx (paramNames segs) (req.urlString :: groups) req.ctx })
    else serveLoop path mws req rest

/-- `Router.ServeHTTP`: dispatches a request over the binding table.
`.ok none` is the fall-through outcome (no handler, no middleware, and the
core writes no response); `.error` is the request-time panic raised by
`pathToRegexp.Must` on a malformed pattern. -/
def Router.ServeHTTP (r : Router) (req : Request) : Except String (Option DispatchResult) :=
  serveLoop r.path r.middlewares req r.binding

/-- `Router.PathParam`: `req.Context().Value(key)`; `none` when the key was
never bound. -/
def Router.PathParam (req : Request) (key : String) : Option String :=
  req.ctx.lookup key

/-- A binding is selected for a request when the method is equal and the
compiled pattern for `path ++ binding.match_` matches the request's URL
string. -/
def MatchesAt (path : String) (req : Request) (b : Binding) : Prop :=
  req.method = b.method ∧
    ∃ segs, compile (path ++ b.match_) = .ok segs ∧
      (matchPattern segs req.urlString).isSome

/-- A binding is passed over by the scan without effect: either the method
differs, or the pattern compiles and does not match the request's URL
string. -/
def SkipsAt (path : String) (req : Request) (b : Binding) : Prop :=
  req.method ≠ b.method ∨
    ∃ segs, compile (path ++ b.match_) = .ok segs ∧
      matchPattern segs req.urlString = none

/-! ### Helper lemmas -/

/-- A binding the scan passes over leaves the rest of the scan unchanged. -/
theorem serveLoop_skip_cons (path : String) (mws : List Nat) (req : Request)
    (b : Binding) (l : List Binding) (h : SkipsAt path req b) :
    serveLoop path mws req (b :: l) = serveLoop path mws req l := by
  rcases h with h | ⟨segs, hc, hm⟩
  · simp [serveLoop, h]
  · by_cases hme : req.method = b.method
    · simp [serveLoop, hme, hc, hm]
    · simp [serveLoop, hme]

/-- A run of skipped bindings in front of the table leaves the scan
unchanged. -/
theorem serveLoop_append_skip (path : String) (mws : List Nat) (req : Request)
    (pre l : List Binding) (h : ∀ b ∈ pre, SkipsAt path req b) :
    serveLoop path mws req (pre ++ l) = serveLoop path mws req l := by
  induction pre with
  | nil => rfl
  | cons b bs ih =>
    rw [List.cons_append, serveLoop_skip_cons path mws req b (bs ++ l)
      (h b (List.mem_cons_self b bs))]
    exact ih fun b' hb' => h b' (List.mem_cons_of_mem b hb')

/-- A binding whose method matches and whose pattern compiles and matches
stops the scan with its own handler, the router middlewares followed by its
own, and the extracted context. -/
theorem serveLoop_match_cons (path : String) (mws : List Nat) (req : Request)
    (b : Binding) (l : List Binding) (segs : List Seg) (groups : List String)
    (hme : req.method = b.method)
    (hc : compile (path ++ b.match_) = .ok segs)
    (hg : matchPattern segs req.urlString = some groups) :
    serveLoop path mws req (b :: l) =
      .ok (some
        { middlewaresRun := mws ++ b.middlewares,
          handlerRun := b.handler,
          ctx := extractCtx (paramNames segs) (req.urlString :: groups) req.ctx }) := by
  simp [serveLoop, hme, hc, hg]

/-- A binding whose method matches but whose pattern fails to compile makes
the scan fail (the request-time panic of `pathToRegexp.Must`). -/
theorem serveLoop_error_cons (path : String) (mws : List Nat) (req : Request)
    (b : Binding) (l : List Binding) (e : String)
    (hme : req.method = b.method)
    (hc : compile (path ++ b.match_) = .error e) :
    serveLoop path mws req (b :: l) = .error e := by
  simp [serveLoop, hme, hc]

/-- Inversion: a scan that returns a dispatch result got it from some binding
of the table, with the router middlewares in front of that binding's own. -/
theorem serveLoop_ok_some (path : String) (mws : List Nat) (req : Request) :
    ∀ (l : List Binding) (res : DispatchResult),
      serveLoop path mws req l = .ok (some res) →
      ∃ b ∈ l, res.middlewaresRun = mws ++ b.middlewares ∧ res.handlerRun = b.handler
  | [], res, h => by simp [serveLoop] at h
  | b :: l, res, h => by
    by_cases hme : req.method = b.method
    · rcases hcs : compile (path ++ b.match_) with e | segs
      · rw [serveLoop_error_cons path mws req b l e hme hcs] at h
        exact absurd h (by simp)
      · rcases hg : matchPattern segs req.urlString with _ | groups
        · rw [serveLoop_skip_cons path mws req b l (Or.inr ⟨segs, hcs, hg⟩)] at h
          obtain ⟨b', hb', hrest⟩ := serveLoop_ok_some path mws req l res h
          exact ⟨b', List.mem_cons_of_mem b hb', hrest⟩
        · rw [serveLoop_match_cons path mws req b l segs groups hme hcs hg] at h
          simp only [Except.ok.injEq, Option.some.injEq] at h
          exact ⟨b, List.mem_cons_self b l, by rw [← h], by rw [← h]⟩
    · rw [serveLoop_skip_cons path mws req b l (Or.inl hme)] at h
      obtain ⟨b', hb', hrest⟩ := serveLoop_ok_some path mws req l res h
      exact ⟨b', List.mem_cons_of_mem b hb', hrest⟩

/-- `List.lookup` on a key that never occurs in the list yields `none`. -/
theorem lookup_eq_none_of_not_mem (key : String) :
    ∀ (l : List (String × String)), (∀ v, (key, v) ∉ l) → l.lookup key = none
  | [], _ => rfl
  | (k, v) :: l, h => by
    have hk : key ≠ k := by
      intro hkk
      exact h v (by rw [hkk]; exact List.mem_cons_self (k, v) l)
    have hb : (key == k) = false := beq_false_of_ne hk
    simp only [List.lookup, hb]
    exact lookup_eq_none_of_not_mem key l fun v' hv' => h v' (List.mem_cons_of_mem _ hv')

/-- The inner loop of `Merge` over one child's bindings appends the prefixed,
middleware-extended copies of the bindings, in order. -/
theorem mergeFold_eq (router : Router) :
    ∀ (bs : List Binding) (acc : Router),
      bs.foldl
        (fun acc2 binding =>
          { acc2 with
            binding := acc2.binding ++
              [{ binding with
                  match_ := router.path ++ binding.match_,
                  middlewares := binding.middlewares ++ router.middlewares }] })
        acc
      = { acc with
          binding := acc.binding ++
            bs.map (fun binding =>
              { binding with
                match_ := router.path ++ binding.match_,
                middlewares := binding.middlewares ++ router.middlewares }) }
  | [], acc => by simp
  | b :: bs, acc => by
    rw [List.foldl_cons, mergeFold_eq router bs]
    simp

/-- `Merge` appends, child by child and binding by binding, the prefixed and
middleware-extended copies of the children's bindings to the parent's table,
leaving the parent's other fields alone. -/
theorem Merge_eq_flatMap :
    ∀ (rs : List Router) (r : Router),
      r.Merge rs =
        { r with
          binding := r.binding ++
            rs.flatMap (fun c =>
              c.binding.map (fun binding =>
                { binding with
                  match_ := c.path ++ binding.match_,
                  middlewares := binding.middlewares ++ c.middlewares })) }
  | [], r => by simp [Router.Merge]
  | c :: rs, r => by
    show Router.Merge _ _ = _
    unfold Router.Merge
    rw [List.foldl_cons, mergeFold_eq c c.binding r]
    have ih := Merge_eq_flatMap rs
      { r with
        binding := r.binding ++
          c.binding.map (fun binding =>
            { binding with
              match_ := c.path ++ binding.match_,
              middlewares := binding.middlewares ++ c.middlewares }) }
    unfold Router.Merge at ih
    rw [ih]
    simp

/-! ### Claim theorems -/

/-- C10: `Base p1` then `Base p2` leaves the base path equal to `p2` — `Base`
replaces rather than concatenates — and changes no other field of the router
(bindings, global middleware and container are untouched). -/
theorem C10_base_replaces (r : Router) (p1 p2 : String) :
    ((r.Base p1).Base p2).path = p2 ∧
    ((r.Base p1).Base p2).binding = r.binding ∧
    ((r.Base p1).Base p2).middlewares = r.middlewares ∧
    ((r.Base p1).Base p2).container = r.container :=
  ⟨rfl, rfl, rfl, rfl⟩

/-- C9: `Resource` expansion for name `"widget"` and `"/v1/"` appends exactly
five bindings — `GET /v1/widget` (Index), `GET /v1/widget/:id` (Get),
`POST /v1/widget` (Create), `DELETE /v1/widget/:id` (Delete),
`PUT /v1/widget/:id` (Update) — in exactly that order. -/
theorem C9_resource_expansion (r : Router) (i g c d u : Nat) :
    (r.Resource "/v1/" ⟨"widget", i, g, c, d, u⟩).binding =
      r.binding ++
        [⟨i, "/v1/widget", "GET", []⟩,
         ⟨g, "/v1/widget/:id", "GET", []⟩,
         ⟨c, "/v1/widget", "POST", []⟩,
         ⟨d, "/v1/widget/:id", "DELETE", []⟩,
         ⟨u, "/v1/widget/:id", "PUT", []⟩] := by
  simp [Router.Resource, Router.Get, Router.Post, Router.Delete, Router.Put,
    Router.route, Resource.GetName, get, post, delete, put]

/-- C5: `Merge` iterates children in argument order and bindings in
registration order, appending for each binding a new binding with pattern
`child.path ++ binding.match_`, middleware chain
`binding.middlewares ++ child.middlewares` (binding-specific strictly first),
and unchanged method and handler; the parent's pre-existing bindings and other
fields are untouched, and merging a child with zero bindings leaves the parent
unchanged. -/
theorem C5_merge_contract (r : Router) (rs : List Router) :
    (r.Merge rs).binding =
      r.binding ++
        rs.flatMap (fun c =>
          c.binding.map (fun b =>
            ⟨b.handler, c.path ++ b.match_, b.method, b.middlewares ++ c.middlewares⟩)) ∧
    (r.Merge rs).path = r.path ∧
    (r.Merge rs).middlewares = r.middlewares ∧
    (r.Merge rs).container = r.container ∧
    ∀ (p : String) (ct : Nat) (mws : List Nat), r.Merge [⟨p, [], ct, mws⟩] = r := by
  refine ⟨?_, ?_, ?_, ?_, ?_⟩
  · rw [Merge_eq_flatMap rs r]
  · rw [Merge_eq_flatMap rs r]
  · rw [Merge_eq_flatMap rs r]
  · rw [Merge_eq_flatMap rs r]
  · intro p ct mws
    rw [Merge_eq_flatMap [⟨p, [], ct, mws⟩] r]
    simp

/-- C4: merging a child into a parent leaves the child's own state unchanged:
`mergeOneFull` performs exactly the assignments of one iteration of the
`Merge` loop (it is definitionally one step of `Merge`) and hands the child
back with every field — binding table, order, patterns, middleware chains —
as it went in, so the child still dispatches any request exactly as before
the merge. -/
theorem C4_merge_child_unchanged (p c : Router) (cs : List Router) (req : Request) :
    p.Merge (c :: cs) = Router.Merge (p.mergeOneFull c).1 cs ∧
    (p.mergeOneFull c).2 = c ∧
    (p.mergeOneFull c).2.binding = c.binding ∧
    Router.ServeHTTP (p.mergeOneFull c).2 req = c.ServeHTTP req :=
  ⟨rfl, rfl, rfl, rfl⟩

/-- C3: evaluation of `ServeHTTP` at the failing input.  The source matches
the compiled pattern against `req.URL.String()`, which carries the query
string, so `GET /user` with query `x=1` matches nothing even though `GET
/user` without a query selects the binding: binding selection is *not*
independent of the query string, contradicting the claim (and spec section
4.4, which says the match is attempted against the request's path). -/
theorem C3_query_string_changes_selection :
    Router.ServeHTTP ⟨"", [⟨9, "/user", "GET", []⟩], 0, []⟩ ⟨"GET", "/user", "", []⟩ =
      .ok (some ⟨[], 9, []⟩) ∧
    Router.ServeHTTP ⟨"", [⟨9, "/user", "GET", []⟩], 0, []⟩ ⟨"GET", "/user", "x=1", []⟩ =
      .ok none :=
  ⟨rfl, rfl⟩

/-- C1 counterexample: the table holds the single binding `GET /user`
(handler 9); the request `GET` with path `/user` and query `x=1` has an equal
method and a path satisfying the binding's compiled pattern, yet dispatch
invokes no handler at all, because the scan matches the pattern against the
URL string `/user?x=1` rather than the path. -/
theorem C1_counterexample_path_match_not_dispatched :
    (∃ segs, compile ("" ++ "/user") = .ok segs ∧ matchPattern segs "/user" = some []) ∧
    Router.ServeHTTP ⟨"", [⟨9, "/user", "GET", []⟩], 0, []⟩ ⟨"GET", "/user", "x=1", []⟩ =
      .ok none :=
  ⟨⟨[Seg.lit "", Seg.lit "user"], rfl, rfl⟩, rfl⟩

/-- C1: if the binding table is `pre ++ b :: post`, every binding of `pre` is
passed over (method mismatch, or compiled pattern does not match), and `b`'s
method equals the request's and its pattern matches, then dispatch invokes
`b`'s handler and no other, and the bindings of `post` are never evaluated:
the outcome is identical with `post` removed from the table. -/
theorem C1_first_match_wins (r : Router) (req : Request) (pre post : List Binding)
    (b : Binding) (hb : r.binding = pre ++ b :: post)
    (hpre : ∀ b' ∈ pre, SkipsAt r.path req b')
    (hm : MatchesAt r.path req b) :
    ∃ res : DispatchResult,
      r.ServeHTTP req = .ok (some res) ∧
      res.handlerRun = b.handler ∧
      res.middlewaresRun = r.middlewares ++ b.middlewares ∧
      Router.ServeHTTP { r with binding := pre ++ [b] } req = .ok (some res) := by
  obtain ⟨hme, segs, hc, hsome⟩ := hm
  obtain ⟨groups, hg⟩ := Option.isSome_iff_exists.mp hsome
  refine ⟨⟨r.middlewares ++ b.middlewares, b.handler,
    extractCtx (paramNames segs) (req.urlString :: groups) req.ctx⟩, ?_, rfl, rfl, ?_⟩
  · show serveLoop r.path r.middlewares req r.binding = _
    rw [hb, serveLoop_append_skip r.path r.middlewares req pre (b :: post) hpre,
      serveLoop_match_cons r.path r.middlewares req b post segs groups hme hc hg]
  · show serveLoop r.path r.middlewares req (pre ++ [b]) = _
    rw [serveLoop_append_skip r.path r.middlewares req pre [b] hpre,
      serveLoop_match_cons r.path r.middlewares req b [] segs groups hme hc hg]

/-- C1 witness: a table with an earlier non-matching POST binding, an earlier
GET binding on another path, the matching binding `GET /user/:id` (handler 3)
and a later structurally overlapping binding `GET /user/42` (handler 4); the
request `GET /user/42` invokes handler 3. -/
theorem C1_first_match_wins_witness :
    MatchesAt "" ⟨"GET", "/user/42", "", []⟩ ⟨3, "/user/:id", "GET", []⟩ ∧
    ∃ res : DispatchResult,
      Router.ServeHTTP
          ⟨"", [⟨1, "/x", "POST", []⟩, ⟨2, "/nope", "GET", []⟩,
            ⟨3, "/user/:id", "GET", []⟩, ⟨4, "/user/42", "GET", []⟩], 0, []⟩
          ⟨"GET", "/user/42", "", []⟩ = .ok (some res) ∧
      res.handlerRun = 3 := by
  have hm : MatchesAt "" ⟨"GET", "/user/42", "", []⟩ ⟨3, "/user/:id", "GET", []⟩ :=
    ⟨rfl, [Seg.lit "", Seg.lit "user", Seg.param "id"], rfl, rfl⟩
  have hpre : ∀ b' ∈ [(⟨1, "/x", "POST", []⟩ : Binding), ⟨2, "/nope", "GET", []⟩],
      SkipsAt "" ⟨"GET", "/user/42", "", []⟩ b' := by
    intro b' hb'
    simp only [List.mem_cons, List.not_mem_nil, or_false] at hb'
    rcases hb' with rfl | rfl
    · exact Or.inl (by decide)
    · exact Or.inr ⟨[Seg.lit "", Seg.lit "nope"], rfl, rfl⟩
  obtain ⟨res, h1, h2, _⟩ := C1_first_match_wins
    ⟨"", [⟨1, "/x", "POST", []⟩, ⟨2, "/nope", "GET", []⟩,
      ⟨3, "/user/:id", "GET", []⟩, ⟨4, "/user/42", "GET", []⟩], 0, []⟩
    ⟨"GET", "/user/42", "", []⟩
    [⟨1, "/x", "POST", []⟩, ⟨2, "/nope", "GET", []⟩]
    [⟨4, "/user/42", "GET", []⟩]
    ⟨3, "/user/:id", "GET", []⟩ rfl hpre hm
  exact ⟨hm, res, h1, h2⟩

/-- C6 counterexample: a router with global middleware label 1 and a matched
binding with middleware label 2 runs them in the order `[1, 2]` — the
router-level global middleware strictly first — whereas the claim requires
the binding-specific middleware to execute before the global one, which would
be the order `[2, 1]`. -/
theorem C6_counterexample_global_runs_first :
    Router.ServeHTTP ⟨"", [⟨9, "/user", "GET", [2]⟩], 0, [1]⟩ ⟨"GET", "/user", "", []⟩ =
      .ok (some ⟨[1, 2], 9, []⟩) ∧
    ([1, 2] : List Nat) ≠ [2, 1] :=
  ⟨rfl, by decide⟩

/-- C6 amended: for every matched binding, the router-level global middleware
functions execute first, then the binding-specific ones, each group in
registration order, and all of them before the handler: every successful
dispatch trace is `r.middlewares ++ b.middlewares`, then the handler, for
some binding `b` of the table. -/
theorem C6_amended_global_before_route (r : Router) (req : Request)
    (res : DispatchResult) (h : r.ServeHTTP req = .ok (some res)) :
    ∃ b ∈ r.binding,
      res.middlewaresRun = r.middlewares ++ b.middlewares ∧
      res.handlerRun = b.handler :=
  serveLoop_ok_some r.path r.middlewares req r.binding res h

/-- C6 amended, witness: the concrete dispatch of the counterexample router,
with global middleware `[1]` and binding middleware `[2]`, yields the trace
`[1] ++ [2]`. -/
theorem C6_amended_global_before_route_witness :
    ∃ b ∈ ([⟨9, "/user", "GET", [2]⟩] : List Binding),
      ([1, 2] : List Nat) = [1] ++ b.middlewares ∧ 9 = b.handler :=
  C6_amended_global_before_route ⟨"", [⟨9, "/user", "GET", [2]⟩], 0, [1]⟩
    ⟨"GET", "/user", "", []⟩ ⟨[1, 2], 9, []⟩ rfl

/-- C2 counterexample: registering the malformed pattern `":"` (empty
parameter name) succeeds — `route` performs no validation and the binding
lands in the table — and dispatching a request with a matching method over
this table of successfully-registered routes fails on pattern compilation at
request time (the `pathToRegexp.Must` panic). -/
theorem C2_counterexample_registration_accepts_malformed :
    (Router.empty.Get ":" 7 []).binding = [⟨7, ":", "GET", []⟩] ∧
    Router.ServeHTTP (Router.empty.Get ":" 7 []) ⟨"GET", "/x", "", []⟩ =
      .error "PatternError: empty parameter name" :=
  ⟨rfl, rfl⟩

/-- C2 amended: registration performs no pattern validation and always
appends the binding; the compile failure of a malformed pattern surfaces at
request time, as a dispatch panic, as soon as the scan reaches the binding
with an equal request method. -/
theorem C2_amended_failure_at_request_time (r : Router) (method rte : String)
    (f : Nat) (mw : List Nat) (req : Request) (e : String)
    (hpre : ∀ b ∈ r.binding, SkipsAt r.path req b)
    (hme : req.method = method)
    (hc : compile (r.path ++ rte) = .error e) :
    (r.route method rte f mw).binding = r.binding ++ [⟨f, rte, method, mw⟩] ∧
    (r.route method rte f mw).ServeHTTP req = .error e := by
  refine ⟨rfl, ?_⟩
  show serveLoop r.path r.middlewares req (r.binding ++ [⟨f, rte, method, mw⟩]) = .error e
  rw [serveLoop_append_skip r.path r.middlewares req r.binding [⟨f, rte, method, mw⟩] hpre]
  exact serveLoop_error_cons r.path r.middlewares req ⟨f, rte, method, mw⟩ [] e hme hc

/-- C2 amended, witness: the empty router with the malformed route `":"`
registered panics with the pattern error on `GET /x`. -/
theorem C2_amended_failure_at_request_time_witness :
    compile ("" ++ ":") = .error "PatternError: empty parameter name" ∧
    (Router.empty.route "GET" ":" 7 []).binding = [⟨7, ":", "GET", []⟩] ∧
    (Router.empty.route "GET" ":" 7 []).ServeHTTP ⟨"GET", "/x", "", []⟩ =
      .error "PatternError: empty parameter name" := by
  have h := C2_amended_failure_at_request_time Router.empty "GET" ":" 7 []
    ⟨"GET", "/x", "", []⟩ "PatternError: empty parameter name"
    (by intro b hb; exact absurd hb (List.not_mem_nil b)) rfl rfl
  exact ⟨rfl, h.1, h.2⟩

/-- C8: when every binding of the table is passed over by the scan — the
method differs, or the compiled pattern does not match the request's URL
string — dispatch returns the fall-through outcome: no handler is invoked, no
middleware (global or binding-specific) runs, and the core writes no
not-found response. -/
theorem C8_no_match_no_effect (r : Router) (req : Request)
    (h : ∀ b ∈ r.binding, SkipsAt r.path req b) :
    r.ServeHTTP req = .ok none := by
  show serveLoop r.path r.middlewares req r.binding = .ok none
  have h2 := serveLoop_append_skip r.path r.middlewares req r.binding [] h
  simpa using h2

/-- C8 witness: a router with a GET and a POST binding and global middleware
falls through on `GET /zzz`, which matches neither binding. -/
theorem C8_no_match_no_effect_witness :
    Router.ServeHTTP ⟨"", [⟨1, "/a", "GET", [5]⟩, ⟨2, "/b", "POST", []⟩], 0, [7]⟩
      ⟨"GET", "/zzz", "", []⟩ = .ok none := by
  have hpre : ∀ b ∈ [(⟨1, "/a", "GET", [5]⟩ : Binding), ⟨2, "/b", "POST", []⟩],
      SkipsAt "" ⟨"GET", "/zzz", "", []⟩ b := by
    intro b hb
    simp only [List.mem_cons, List.not_mem_nil, or_false] at hb
    rcases hb with rfl | rfl
    · exact Or.inr ⟨[Seg.lit "", Seg.lit "a"], rfl, rfl⟩
    · exact Or.inl (by decide)
  exact C8_no_match_no_effect ⟨"", [⟨1, "/a", "GET", [5]⟩, ⟨2, "/b", "POST", []⟩], 0, [7]⟩
    ⟨"GET", "/zzz", "", []⟩ hpre

/-- C7: for the binding `GET /user/:id` matched against `/user/42`, the
context attached to the request the handler receives binds `"id"` so that
`PathParam req "id"` returns `"42"`; and for every request and every key
never bound in its context, `PathParam` returns `none`. -/
theorem C7_pathParam (req : Request) (key : String)
    (h : ∀ v, (key, v) ∉ req.ctx) :
    (Router.ServeHTTP ⟨"", [⟨9, "/user/:id", "GET", []⟩], 0, []⟩
        ⟨"GET", "/user/42", "", []⟩ =
      .ok (some ⟨[], 9, [("id", "42"), ("id", "/user/42")]⟩) ∧
      Router.PathParam ⟨"GET", "/user/42", "", [("id", "42"), ("id", "/user/42")]⟩ "id" =
        some "42") ∧
    Router.PathParam req key = none :=
  ⟨⟨rfl, rfl⟩, lookup_eq_none_of_not_mem key req.ctx h⟩

/-- C7 witness: instantiated at a request with an empty context and the key
`"nope"`, which is unbound there. -/
theorem C7_pathParam_witness :
    Router.PathParam ⟨"GET", "/", "", []⟩ "nope" = none :=
  (C7_pathParam ⟨"GET", "/", "", []⟩ "nope"
    fun v hv => absurd hv (List.not_mem_nil ("nope", v))).2

end Ghast
